import Mathlib

/-!
Verification development for the GenshinWidget desktop widget (src/main.py).

The program is shallow-embedded: the settings store (a flat INI file with
sections Display / Auth / Window, read through the Python configparser) is a
record of association lists; the startup routine initUI becomes an Except
pipeline that either terminates with a user-facing warning (or an uncaught
key/value error) or produces the initial window state; the periodic refresh
update_info becomes a pure function of the configuration and of the external
client outcome; the render routine update_ui becomes a pure transformer of
a widget-list layout state with an allocation counter standing for the Python
guarantee that newly constructed Qt widgets are distinct objects from all
earlier ones; the drag and close handlers become transformers of an
application state carrying the window position, the in-memory configuration
and the persisted file image.
-/

namespace GenshinWidget

/-- Association-list lookup standing for configparser section access
(keys inside a parsed INI section are unique, so first-match suffices). -/
def lookupKey : List (String × String) → String → Option String
  | [], _ => none
  | (k, v) :: rest, key => if k = key then some v else lookupKey rest key

/-- Association-list update standing for ConfigParser.set: replace the value
in place when the key exists, append the pair otherwise. -/
def setKey : List (String × String) → String → String → List (String × String)
  | [], key, val => [(key, val)]
  | (k, v) :: rest, key, val =>
    if k = key then (key, val) :: rest else (k, v) :: setKey rest key val

/-- Source main.py line 74/186: value == str 1. -/
def bool_from_str (value : String) : Bool := value = "1"

/-- A single-quote character, built numerically so that Python error texts
containing quotes can be written without literal apostrophes. -/
def pySQuote : String := String.singleton (Char.ofNat 39)

/-- Decimal value of a digit string (most significant digit first). -/
def digitsToNat (l : List Char) : Nat :=
  l.foldl (fun acc d => 10 * acc + (d.toNat - 48)) 0

/-- Python int(str) conversion: strip surrounding whitespace, allow one
optional sign, then decimal digits only (PEP 515 underscores are not
modelled; no claim exercises them). Returns none where Python raises
ValueError. -/
def pyParseInt (s : String) : Option Int :=
  let t := ((s.data.dropWhile Char.isWhitespace).reverse.dropWhile
    Char.isWhitespace).reverse
  let signed : Bool × List Char :=
    match t with
    | c :: rest =>
      if c = '-' then (true, rest)
      else if c = '+' then (false, rest)
      else (false, t)
    | [] => (false, [])
  let core := signed.2
  if core.isEmpty then none
  else if core.all Char.isDigit then
    some (if signed.1 then -(digitsToNat core : Int) else (digitsToNat core : Int))
  else none

/-- Message of the Python ValueError raised by int(s) on a bad literal. -/
def invalidIntMsg (s : String) : String :=
  "invalid literal for int() with base 10: " ++ pySQuote ++ s ++ pySQuote

/-- Python str() of a bool, as interpolated by the f-strings in update_info. -/
def pyBoolStr (b : Bool) : String := if b then "True" else "False"

/-- The settings store: the three sections read at main.py lines 60-62.
(The program indexes self.config with these three section names directly,
so a store without them never reaches any behaviour the claims describe.) -/
structure Config where
  display : List (String × String)
  auth : List (String × String)
  window : List (String × String)
deriving Repr, DecidableEq

/-- The four credential keys checked at main.py line 69. -/
def authKeys : List String :=
  ["ltuid_v2", "ltoken_v2", "cookie_token_v2", "account_mid_v2"]

/-- Python "not auth_config.get(k)": true when the key is absent (get gives
None) or present with the empty string (both are falsy). -/
def missingOrEmpty (sec : List (String × String)) (k : String) : Bool :=
  match lookupKey sec k with
  | none => true
  | some v => v = ""

/-- The disjunction tested at main.py line 69. -/
def anyAuthMissing (auth : List (String × String)) : Bool :=
  missingOrEmpty auth "ltuid_v2" || missingOrEmpty auth "ltoken_v2" ||
  missingOrEmpty auth "cookie_token_v2" || missingOrEmpty auth "account_mid_v2"

/-- Ways initUI can terminate before completing: the two warning-and-exit
gates, and uncaught configparser/conversion exceptions (which also kill the
process, but with a traceback instead of a warning dialog). -/
inductive StartupExit where
  | authMissing
  | conflictWarning
  | keyError (key : String)
  | valueError (msg : String)
deriving Repr, DecidableEq

/-- Source main.py lines 68-71: warn and sys.exit when any credential is
missing or empty. -/
def authGate (auth : List (String × String)) : Except StartupExit Unit :=
  if anyAuthMissing auth then .error .authMissing else .ok ()

/-- Direct section indexing, section[key]: raises KeyError when absent. -/
def requireKey (sec : List (String × String)) (k : String) :
    Except StartupExit String :=
  match lookupKey sec k with
  | some v => .ok v
  | none => .error (.keyError k)

/-- SectionProxy.getint(key, fallback): the fallback when the key is absent,
int(value) otherwise (ValueError on a bad literal). -/
def getintD (sec : List (String × String)) (k : String) (fallback : Int) :
    Except StartupExit Int :=
  match lookupKey sec k with
  | none => .ok fallback
  | some v =>
    match pyParseInt v with
    | some n => .ok n
    | none => .error (.valueError (invalidIntMsg v))

/-- SectionProxy.getint(key) without fallback: NoOptionError when absent. -/
def getintReq (sec : List (String × String)) (k : String) :
    Except StartupExit Int :=
  match lookupKey sec k with
  | none => .error (.keyError k)
  | some v =>
    match pyParseInt v with
    | some n => .ok n
    | none => .error (.valueError (invalidIntMsg v))

/-- Source main.py lines 77-82: read display_config of word_wrap and of
fit_window_to_text by direct indexing (KeyError when absent), convert each
with bool_from_str, and warn-and-exit when both are enabled. On success the
pair of booleans is returned. -/
def exclusivityCheck (ww fit : Option String) :
    Except StartupExit (Bool × Bool) :=
  match ww with
  | none => .error (.keyError "word_wrap")
  | some w =>
    match fit with
    | none => .error (.keyError "fit_window_to_text")
    | some f =>
      if bool_from_str w && bool_from_str f then .error .conflictWarning
      else .ok (bool_from_str w, bool_from_str f)

/-- The facts established by a completed initUI that the claims consult. -/
structure InitState where
  wordWrap : Bool
  fitWindowToText : Bool
  showInTaskbar : Bool
  transparencyRaw : String
  alwaysOnTop : Bool
  initialPos : Int × Int
  margins : Int
  fontSize : Int
  fontColor : String
  showBackground : Bool
  backgroundColor : String
  backgroundImage : String
  cornerRadius : Int
  allowResizing : Bool
  draggable : Bool
  timerIntervalMs : Nat
deriving Repr, DecidableEq

/-- Source main.py lines 56-162, with configuration reads in source order:
the auth gate (69), the word-wrap/fit-to-text exclusivity check (78-82),
show_in_taskbar (85), transparency (87, kept as the raw string: its float
conversion is never consulted by a claim), always_on_top (88), the last_x
and last_y position restore with default 100 (94), margins with default 10
(108), font_size (128), font_color (129), show_background (133),
background_color (134), background_image with default empty (135),
corner_radius with default 0 (read inside apply_styles, called at 138),
allow_resizing (141), draggable (144), and finally the 60000 ms refresh
timer (162). -/
def initUI (cfg : Config) : Except StartupExit InitState := do
  authGate cfg.auth
  let flags ← exclusivityCheck (lookupKey cfg.display "word_wrap")
      (lookupKey cfg.display "fit_window_to_text")
  let taskbar ← requireKey cfg.display "show_in_taskbar"
  let transparency ← requireKey cfg.display "transparency"
  let onTop ← requireKey cfg.display "always_on_top"
  let lastX ← getintD cfg.window "last_x" 100
  let lastY ← getintD cfg.window "last_y" 100
  let margins ← getintD cfg.display "margins" 10
  let fontSize ← getintReq cfg.display "font_size"
  let fontColor ← requireKey cfg.display "font_color"
  let showBg ← requireKey cfg.display "show_background"
  let bgColor ← requireKey cfg.display "background_color"
  let bgImage := (lookupKey cfg.display "background_image").getD ""
  let corner ← getintD cfg.display "corner_radius" 0
  let resizing ← requireKey cfg.display "allow_resizing"
  let drag ← requireKey cfg.display "draggable"
  return { wordWrap := flags.1
           fitWindowToText := flags.2
           showInTaskbar := bool_from_str taskbar
           transparencyRaw := transparency
           alwaysOnTop := bool_from_str onTop
           initialPos := (lastX, lastY)
           margins := margins
           fontSize := fontSize
           fontColor := fontColor
           showBackground := bool_from_str showBg
           backgroundColor := bgColor
           backgroundImage := bgImage
           cornerRadius := corner
           allowResizing := bool_from_str resizing
           draggable := bool_from_str drag
           timerIntervalMs := 60000 }

/-- The fields of the external client notes object that update_info reads
(genshin.Client.get_notes return value). -/
structure Notes where
  current_resin : Int
  max_resin : Int
  claimed_commission_reward : Bool
  current_realm_currency : Int
deriving Repr, DecidableEq

/-- Outcome of the awaited client.get_notes call: a notes object, a raised
genshin.errors.GenshinException (caught by the inner except at main.py line
214), or any other exception (propagating to the outer except at 218). -/
inductive FetchResult where
  | ok (notes : Notes)
  | genshinError (msg : String)
  | otherError (msg : String)
deriving Repr, DecidableEq

/-- What one invocation of update_info does: the triple emitted on
update_ui_signal (none when nothing is emitted) and whether the external
get_notes call was made. -/
structure UpdateResult where
  emitted : Option (String × String × String)
  calledGetNotes : Bool
deriving Repr, DecidableEq

/-- Source main.py lines 198-220. Inside the outer try, in order:
int(config of Auth ltuid_v2) - a missing key raises KeyError (whose str is
the quoted key) and a bad literal raises ValueError, both caught by the
outer except which emits the generic triple; then show_notes is read with
default str 0; only when it equals str 1 is get_notes awaited, with a
GenshinException turned into the notes-error triple by the inner except and
any other exception into the generic triple by the outer one. When
show_notes is disabled nothing is emitted and no call is made. -/
def update_info (cfg : Config) (fetch : FetchResult) : UpdateResult :=
  match lookupKey cfg.auth "ltuid_v2" with
  | none =>
    { emitted := some ("Error fetching data: " ++ pySQuote ++ "ltuid_v2" ++ pySQuote, "", "")
      calledGetNotes := false }
  | some s =>
    match pyParseInt s with
    | none =>
      { emitted := some ("Error fetching data: " ++ invalidIntMsg s, "", "")
        calledGetNotes := false }
    | some _ =>
      let show_notes := (lookupKey cfg.display "show_notes").getD "0"
      if bool_from_str show_notes then
        match fetch with
        | .ok notes =>
          { emitted := some
              ("Resin: " ++ toString notes.current_resin ++ "/" ++ toString notes.max_resin,
               "Daily Reward Claimed: " ++ pyBoolStr notes.claimed_commission_reward,
               "Realm Currency: " ++ toString notes.current_realm_currency ++ "/2400")
            calledGetNotes := true }
        | .genshinError m =>
          { emitted := some ("Error fetching notes: " ++ m, "", "")
            calledGetNotes := true }
        | .otherError m =>
          { emitted := some ("Error fetching data: " ++ m, "", "")
            calledGetNotes := true }
      else
        { emitted := none, calledGetNotes := false }

/-- Source main.py lines 194-196: the startup task scheduled by
ensure_future at line 157 just awaits update_info. -/
def add_info_labels (cfg : Config) (fetch : FetchResult) : UpdateResult :=
  update_info cfg fetch

/-- One icon+label row as built by update_ui: widget identities stand for
the distinct Qt objects constructed on each update, and the checkin icon
carries the claim-page URL set on the ClickableLabel. -/
structure Row where
  iconId : Nat
  iconUrl : Option String
  labelId : Nat
  labelText : String
deriving Repr, DecidableEq

/-- The content layout together with an allocation counter: every widget
ever created has an identity below the counter, and freshly constructed
widgets receive identities at and above it (Python object identity). -/
structure RenderState where
  counter : Nat
  rows : List Row
deriving Repr, DecidableEq

/-- What one update_ui call did: the rows removed from the layout and
scheduled for deletion, the resulting layout state, and whether adjustSize
was called. -/
structure UpdateUIResult where
  deleted : List Row
  state : RenderState
  adjusted : Bool
deriving Repr, DecidableEq

/-- The claim-page URL set on the checkin icon at main.py line 251. -/
def checkinUrl : String :=
  "https://act.hoyolab.com/ys/event/signin-sea-v3/index.html?act_id=e202102251931481"

/-- Source main.py lines 222-275: the while loop at 226-233 removes every
item from the content layout and schedules its widgets for deletion; then
three fresh icon+label rows are built (resin, checkin with the clickable
URL, realm currency) and appended; adjustSize runs exactly when
fit_window_to_text is enabled. -/
def update_ui (fit : Bool) (resin_info checkin_info realm_currency_info : String)
    (st : RenderState) : UpdateUIResult :=
  let c := st.counter
  let resinRow : Row :=
    { iconId := c, iconUrl := none, labelId := c + 1, labelText := resin_info }
  let checkinRow : Row :=
    { iconId := c + 2, iconUrl := some checkinUrl, labelId := c + 3,
      labelText := checkin_info }
  let realmRow : Row :=
    { iconId := c + 4, iconUrl := none, labelId := c + 5,
      labelText := realm_currency_info }
  { deleted := st.rows
    state := { counter := c + 6, rows := [resinRow, checkinRow, realmRow] }
    adjusted := fit }

/-- Window position plus the drag anchor kept in self.oldPos. -/
structure WindowState where
  x : Int
  y : Int
  oldPos : Int × Int
deriving Repr, DecidableEq

/-- The application state the mouse handlers touch: window geometry, the
in-memory ConfigParser object, and the image last written to settings.ini. -/
structure AppState where
  win : WindowState
  config : Config
  file : Config
deriving Repr, DecidableEq

/-- Source main.py lines 294-296: a left-button press records the global
cursor position as the drag anchor. -/
def startMove (globalPos : Int × Int) (st : AppState) : AppState :=
  { st with win := { st.win with oldPos := globalPos } }

/-- Write the current window position into the Window section, as both
mouse handlers do with config.set at lines 304-305 / 311-312. -/
def writePosition (cfg : Config) (x y : Int) : Config :=
  let w := setKey (setKey cfg.window "last_x" (toString x)) "last_y" (toString y)
  { cfg with window := w }

/-- Source main.py lines 298-307: move the window by the cursor delta from
the anchor, re-anchor, store the new position in the in-memory config and
rewrite settings.ini from it. -/
def mouseMoveEvent (globalPos : Int × Int) (st : AppState) : AppState :=
  let dx := globalPos.1 - st.win.oldPos.1
  let dy := globalPos.2 - st.win.oldPos.2
  let nx := st.win.x + dx
  let ny := st.win.y + dy
  let cfg := writePosition st.config nx ny
  { win := { x := nx, y := ny, oldPos := globalPos }, config := cfg, file := cfg }

/-- Source main.py lines 309-315: on close, store the current position in
the in-memory config and rewrite settings.ini from it. -/
def closeEvent (st : AppState) : AppState :=
  let cfg := writePosition st.config st.win.x st.win.y
  { st with config := cfg, file := cfg }

/-! Concrete stores and states used to instantiate the theorems below. -/

/-- A fully populated, well-formed settings store. -/
def cfgW : Config :=
  { display := [("word_wrap", "0"), ("fit_window_to_text", "1"),
      ("show_in_taskbar", "0"), ("transparency", "0.8"), ("always_on_top", "1"),
      ("margins", "10"), ("font_size", "16"), ("font_color", "#FFFFFF"),
      ("show_background", "1"), ("background_color", "#000000"),
      ("corner_radius", "8"), ("allow_resizing", "0"), ("draggable", "1"),
      ("show_notes", "1")]
    auth := [("ltuid_v2", "123456"), ("ltoken_v2", "tok"),
      ("cookie_token_v2", "ck"), ("account_mid_v2", "mid")]
    window := [("last_x", "250"), ("last_y", "80")] }

/-- The state initUI produces from cfgW. -/
def stW : InitState :=
  { wordWrap := false, fitWindowToText := true, showInTaskbar := false,
    transparencyRaw := "0.8", alwaysOnTop := true, initialPos := (250, 80),
    margins := 10, fontSize := 16, fontColor := "#FFFFFF", showBackground := true,
    backgroundColor := "#000000", backgroundImage := "", cornerRadius := 8,
    allowResizing := false, draggable := true, timerIntervalMs := 60000 }

/-- cfgW with both window-position keys removed. -/
def cfgNoPos : Config := { cfgW with window := [] }

/-- cfgW with an empty ltoken_v2 credential. -/
def cfgNoAuth : Config :=
  { cfgW with auth := [("ltuid_v2", "123456"), ("ltoken_v2", ""),
      ("cookie_token_v2", "ck"), ("account_mid_v2", "mid")] }

/-- A store whose Display section lacks the word_wrap key. -/
def cfgNoWW : Config :=
  { cfgW with display := [("fit_window_to_text", "0")] }

/-- A store with both exclusive display flags enabled. -/
def cfgBothFlags : Config :=
  { cfgW with display := [("word_wrap", "1"), ("fit_window_to_text", "1")] }

/-- cfgW with a non-numeric ltuid_v2 credential. -/
def cfgBadUid : Config :=
  { cfgW with auth := [("ltuid_v2", "abc"), ("ltoken_v2", "tok"),
      ("cookie_token_v2", "ck"), ("account_mid_v2", "mid")] }

/-- The notes snapshot exercised by the success scenario of the spec. -/
def notesW : Notes :=
  { current_resin := 30, max_resin := 160, claimed_commission_reward := true,
    current_realm_currency := 1200 }

/-- A stale row built from earlier widget identities. -/
def oldRow : Row :=
  { iconId := 0, iconUrl := none, labelId := 1, labelText := "old" }

/-- A layout state holding one stale row. -/
def rstW : RenderState := { counter := 2, rows := [oldRow] }

/-- An application state at position (100, 100) with anchor (5, 7). -/
def appW : AppState :=
  { win := { x := 100, y := 100, oldPos := (5, 7) }, config := cfgW, file := cfgW }

/-! Helper lemmas. -/

theorem lookupKey_setKey_self (l : List (String × String)) (k v : String) :
    lookupKey (setKey l k v) k = some v := by
  induction l with
  | nil => simp [setKey, lookupKey]
  | cons p rest ih =>
    obtain ⟨pk, pv⟩ := p
    by_cases h : pk = k
    · simp [setKey, lookupKey, h]
    · simp [setKey, lookupKey, h, ih]

theorem lookupKey_setKey_ne (l : List (String × String)) (k v k2 : String)
    (hne : k2 ≠ k) : lookupKey (setKey l k v) k2 = lookupKey l k2 := by
  induction l with
  | nil => simp [setKey, lookupKey, Ne.symm hne]
  | cons p rest ih =>
    obtain ⟨pk, pv⟩ := p
    by_cases h : pk = k
    · subst h
      simp [setKey, lookupKey, Ne.symm hne]
    · simp [setKey, lookupKey, h, ih]

theorem exceptBind_ok {ε α β : Type} {e : Except ε α} {f : α → Except ε β}
    {b : β} : (e >>= f) = Except.ok b ↔ ∃ a, e = Except.ok a ∧ f a = Except.ok b := by
  cases e <;> simp [Bind.bind, Except.bind]

theorem exceptPure_ok {ε α : Type} {a b : α} :
    (pure a : Except ε α) = Except.ok b ↔ a = b := by
  simp [pure, Except.pure]

/-- Whenever initUI completes, the initial window position is exactly what
getintD with fallback 100 yields on the two Window keys. -/
theorem initUI_pos (cfg : Config) (st : InitState) (h : initUI cfg = .ok st) :
    ∃ x y, getintD cfg.window "last_x" 100 = .ok x ∧
      getintD cfg.window "last_y" 100 = .ok y ∧ st.initialPos = (x, y) := by
  unfold initUI at h
  simp only [exceptBind_ok, exceptPure_ok] at h
  obtain ⟨_, _, flags, hflags, tb, htb, tr, htr, ot, hot, x, hx, y, hy, rest⟩ := h
  obtain ⟨mg, hmg, fs, hfs, fc, hfc, sb, hsb, bc, hbc, cr, hcr, rs, hrs, dr, hdr, hst⟩ := rest
  refine ⟨x, y, hx, hy, ?_⟩
  subst hst
  rfl

theorem getintD_some (sec : List (String × String)) (k : String) (fallback : Int)
    (v : String) (n : Int) (hl : lookupKey sec k = some v)
    (hp : pyParseInt v = some n) : getintD sec k fallback = .ok n := by
  simp [getintD, hl, hp]

theorem getintD_none (sec : List (String × String)) (k : String) (fallback : Int)
    (hl : lookupKey sec k = none) : getintD sec k fallback = .ok fallback := by
  simp [getintD, hl]

theorem initUI_timer (cfg : Config) (st : InitState) (h : initUI cfg = .ok st) :
    st.timerIntervalMs = 60000 := by
  unfold initUI at h
  simp only [exceptBind_ok, exceptPure_ok] at h
  obtain ⟨_, _, flags, hflags, tb, htb, tr, htr, ot, hot, x, hx, y, hy, rest⟩ := h
  obtain ⟨mg, hmg, fs, hfs, fc, hfc, sb, hsb, bc, hbc, cr, hcr, rs, hrs, dr, hdr, hst⟩ := rest
  subst hst
  rfl

theorem update_info_success (cfg : Config) (s : String) (n : Int) (notes : Notes)
    (hs : lookupKey cfg.auth "ltuid_v2" = some s)
    (hp : pyParseInt s = some n)
    (hnotes : (lookupKey cfg.display "show_notes").getD "0" = "1") :
    update_info cfg (.ok notes) =
      { emitted := some
          ("Resin: " ++ toString notes.current_resin ++ "/" ++
             toString notes.max_resin,
           "Daily Reward Claimed: " ++ pyBoolStr notes.claimed_commission_reward,
           "Realm Currency: " ++ toString notes.current_realm_currency ++ "/2400")
        calledGetNotes := true } := by
  simp [update_info, hs, hp, hnotes, bool_from_str]

theorem update_info_genshinError (cfg : Config) (s : String) (n : Int) (msg : String)
    (hs : lookupKey cfg.auth "ltuid_v2" = some s)
    (hp : pyParseInt s = some n)
    (hnotes : (lookupKey cfg.display "show_notes").getD "0" = "1") :
    update_info cfg (.genshinError msg) =
      { emitted := some ("Error fetching notes: " ++ msg, "", "")
        calledGetNotes := true } := by
  simp [update_info, hs, hp, hnotes, bool_from_str]

theorem update_info_badUid (cfg : Config) (fetch : FetchResult) (s : String)
    (hs : lookupKey cfg.auth "ltuid_v2" = some s)
    (hp : pyParseInt s = none) :
    update_info cfg fetch =
      { emitted := some ("Error fetching data: " ++ invalidIntMsg s, "", "")
        calledGetNotes := false } := by
  simp [update_info, hs, hp]

theorem update_info_disabled (cfg : Config) (fetch : FetchResult) (s : String)
    (n : Int) (hs : lookupKey cfg.auth "ltuid_v2" = some s)
    (hp : pyParseInt s = some n)
    (hflag : (lookupKey cfg.display "show_notes").getD "0" ≠ "1") :
    update_info cfg fetch = { emitted := none, calledGetNotes := false } := by
  simp [update_info, hs, hp, bool_from_str, hflag]

/-! Claim theorems. -/

/-- Claim C6: at startup, Window keys last_x=250 and last_y=80 put the
window at (250, 80); a missing coordinate key defaults to 100, and with
both keys absent the initial position is (100, 100). -/
theorem C6_initial_position :
    (∀ cfg st, initUI cfg = .ok st →
      lookupKey cfg.window "last_x" = some "250" →
      lookupKey cfg.window "last_y" = some "80" →
      st.initialPos = (250, 80)) ∧
    (∀ cfg st, initUI cfg = .ok st →
      lookupKey cfg.window "last_x" = none → st.initialPos.1 = 100) ∧
    (∀ cfg st, initUI cfg = .ok st →
      lookupKey cfg.window "last_y" = none → st.initialPos.2 = 100) ∧
    (∀ cfg st, initUI cfg = .ok st →
      lookupKey cfg.window "last_x" = none →
      lookupKey cfg.window "last_y" = none → st.initialPos = (100, 100)) := by
  refine ⟨?_, ?_, ?_, ?_⟩
  · intro cfg st h hlx hly
    obtain ⟨x, y, hx, hy, hpos⟩ := initUI_pos cfg st h
    rw [getintD_some cfg.window "last_x" 100 "250" 250 hlx rfl] at hx
    rw [getintD_some cfg.window "last_y" 100 "80" 80 hly rfl] at hy
    injection hx with hx
    injection hy with hy
    rw [hpos, ← hx, ← hy]
  · intro cfg st h hlx
    obtain ⟨x, y, hx, hy, hpos⟩ := initUI_pos cfg st h
    rw [getintD_none cfg.window "last_x" 100 hlx] at hx
    injection hx with hx
    rw [hpos, ← hx]
  · intro cfg st h hly
    obtain ⟨x, y, hx, hy, hpos⟩ := initUI_pos cfg st h
    rw [getintD_none cfg.window "last_y" 100 hly] at hy
    injection hy with hy
    rw [hpos, ← hy]
  · intro cfg st h hlx hly
    obtain ⟨x, y, hx, hy, hpos⟩ := initUI_pos cfg st h
    rw [getintD_none cfg.window "last_x" 100 hlx] at hx
    rw [getintD_none cfg.window "last_y" 100 hly] at hy
    injection hx with hx
    injection hy with hy
    rw [hpos, ← hx, ← hy]

theorem C6_witness :
    initUI cfgW = .ok stW ∧ stW.initialPos = (250, 80) ∧
    initUI cfgNoPos = .ok { stW with initialPos := (100, 100) } ∧
    InitState.initialPos { stW with initialPos := (100, 100) } = (100, 100) :=
  ⟨rfl, C6_initial_position.1 cfgW stW rfl rfl rfl,
   rfl, C6_initial_position.2.2.2 cfgNoPos
     { stW with initialPos := (100, 100) } rfl rfl rfl⟩

/-- Claim C4: a missing or empty Auth credential among ltuid_v2, ltoken_v2,
cookie_token_v2, account_mid_v2 makes startup warn and exit before any
window chrome is set up; with all four present and non-empty the gate
passes. -/
theorem C4_auth_gate :
    (∀ cfg : Config, ∀ k, k ∈ authKeys →
      (lookupKey cfg.auth k = none ∨ lookupKey cfg.auth k = some "") →
      initUI cfg = .error .authMissing) ∧
    (∀ cfg : Config,
      (∀ k, k ∈ authKeys → ∃ v, lookupKey cfg.auth k = some v ∧ v ≠ "") →
      authGate cfg.auth = .ok ()) := by
  constructor
  · intro cfg k hk hm
    have hmoe : missingOrEmpty cfg.auth k = true := by
      rcases hm with h | h <;> simp [missingOrEmpty, h]
    have hany : anyAuthMissing cfg.auth = true := by
      simp only [authKeys, List.mem_cons, List.not_mem_nil, or_false] at hk
      rcases hk with rfl | rfl | rfl | rfl <;>
        simp [anyAuthMissing, hmoe]
    unfold initUI
    rw [show authGate cfg.auth = .error .authMissing from by simp [authGate, hany]]
    rfl
  · intro cfg hall
    have m : ∀ k, k ∈ authKeys → missingOrEmpty cfg.auth k = false := by
      intro k hk
      obtain ⟨v, hv, hne⟩ := hall k hk
      simp [missingOrEmpty, hv, hne]
    have m1 := m "ltuid_v2" (by simp [authKeys])
    have m2 := m "ltoken_v2" (by simp [authKeys])
    have m3 := m "cookie_token_v2" (by simp [authKeys])
    have m4 := m "account_mid_v2" (by simp [authKeys])
    simp [authGate, anyAuthMissing, m1, m2, m3, m4]

theorem C4_witness :
    initUI cfgNoAuth = .error .authMissing ∧ authGate cfgW.auth = .ok () :=
  ⟨C4_auth_gate.1 cfgNoAuth "ltoken_v2" (by simp [authKeys]) (Or.inr rfl),
   C4_auth_gate.2 cfgW (by
    intro k hk
    simp only [authKeys, List.mem_cons, List.not_mem_nil, or_false] at hk
    rcases hk with rfl | rfl | rfl | rfl
    · exact ⟨"123456", rfl, by decide⟩
    · exact ⟨"tok", rfl, by decide⟩
    · exact ⟨"ck", rfl, by decide⟩
    · exact ⟨"mid", rfl, by decide⟩)⟩

/-- Claim C3 (amended): with both word_wrap and fit_window_to_text equal to
the token 1 the exclusivity check fails with the conflict warning, and a
startup that passed the auth gate terminates with it; when both keys are
present and at most one equals 1 the check passes, returning the two parsed
flags. (A store missing either key raises a key error at this check instead
of passing, which is what the counterexample below exhibits.) -/
theorem C3_exclusivity :
    (∀ cfg : Config,
      lookupKey cfg.display "word_wrap" = some "1" →
      lookupKey cfg.display "fit_window_to_text" = some "1" →
      exclusivityCheck (lookupKey cfg.display "word_wrap")
        (lookupKey cfg.display "fit_window_to_text") = .error .conflictWarning) ∧
    (∀ cfg : Config, ∀ w f : String,
      lookupKey cfg.display "word_wrap" = some w →
      lookupKey cfg.display "fit_window_to_text" = some f →
      ¬(w = "1" ∧ f = "1") →
      exclusivityCheck (lookupKey cfg.display "word_wrap")
        (lookupKey cfg.display "fit_window_to_text") =
        .ok (bool_from_str w, bool_from_str f)) ∧
    (∀ cfg : Config,
      authGate cfg.auth = .ok () →
      lookupKey cfg.display "word_wrap" = some "1" →
      lookupKey cfg.display "fit_window_to_text" = some "1" →
      initUI cfg = .error .conflictWarning) := by
  refine ⟨?_, ?_, ?_⟩
  · intro cfg hw hf
    rw [hw, hf]
    rfl
  · intro cfg w f hw hf hnot
    rw [hw, hf]
    by_cases h1 : w = "1" <;> by_cases h2 : f = "1" <;>
      simp_all [exclusivityCheck, bool_from_str]
  · intro cfg hauth hw hf
    unfold initUI
    rw [hauth, hw, hf]
    rfl

theorem C3_counterexample :
    lookupKey cfgNoWW.display "word_wrap" = none ∧
    lookupKey cfgNoWW.display "fit_window_to_text" = some "0" ∧
    exclusivityCheck (lookupKey cfgNoWW.display "word_wrap")
      (lookupKey cfgNoWW.display "fit_window_to_text") =
      .error (.keyError "word_wrap") :=
  ⟨rfl, rfl, rfl⟩

theorem C3_witness :
    exclusivityCheck (lookupKey cfgBothFlags.display "word_wrap")
      (lookupKey cfgBothFlags.display "fit_window_to_text") =
      .error .conflictWarning ∧
    exclusivityCheck (lookupKey cfgW.display "word_wrap")
      (lookupKey cfgW.display "fit_window_to_text") = .ok (false, true) ∧
    initUI cfgBothFlags = .error .conflictWarning :=
  ⟨C3_exclusivity.1 cfgBothFlags rfl rfl,
   C3_exclusivity.2.1 cfgW "0" "1" rfl rfl (by decide),
   C3_exclusivity.2.2 cfgBothFlags rfl rfl rfl⟩

/-- Claim C1: a successful fetch returning resource 30/160, claimed=true,
currency=1200 emits the triple Resin: 30/160, Daily Reward Claimed: True,
Realm Currency: 1200/2400 (denominator the fixed constant 2400), and the
render layer then displays exactly three rows with exactly those label
texts. -/
theorem C1_success_render :
    ∀ (cfg : Config) (s : String) (n : Int) (fit : Bool) (rst : RenderState),
      lookupKey cfg.auth "ltuid_v2" = some s →
      pyParseInt s = some n →
      (lookupKey cfg.display "show_notes").getD "0" = "1" →
      (update_info cfg (.ok notesW)).emitted =
        some ("Resin: 30/160", "Daily Reward Claimed: True",
          "Realm Currency: 1200/2400") ∧
      (update_ui fit "Resin: 30/160" "Daily Reward Claimed: True"
          "Realm Currency: 1200/2400" rst).state.rows.map Row.labelText =
        ["Resin: 30/160", "Daily Reward Claimed: True",
          "Realm Currency: 1200/2400"] := by
  intro cfg s n fit rst hs hp hnotes
  refine ⟨?_, rfl⟩
  rw [update_info_success cfg s n notesW hs hp hnotes]
  rfl

theorem C1_witness :
    (update_info cfgW (.ok notesW)).emitted =
      some ("Resin: 30/160", "Daily Reward Claimed: True",
        "Realm Currency: 1200/2400") ∧
    (update_ui true "Resin: 30/160" "Daily Reward Claimed: True"
        "Realm Currency: 1200/2400" rstW).state.rows.map Row.labelText =
      ["Resin: 30/160", "Daily Reward Claimed: True",
        "Realm Currency: 1200/2400"] :=
  C1_success_render cfgW "123456" 123456 true rstW rfl rfl rfl

/-- Claim C2: when the client raises its API error during a fetch, the
update pushed to the render layer carries a first text containing the error
message and two empty texts, and after rendering it the content layout holds
exactly three rows. -/
theorem C2_api_error_render :
    ∀ (cfg : Config) (s : String) (n : Int) (msg : String) (fit : Bool)
      (rst : RenderState),
      lookupKey cfg.auth "ltuid_v2" = some s →
      pyParseInt s = some n →
      (lookupKey cfg.display "show_notes").getD "0" = "1" →
      (update_info cfg (.genshinError msg)).emitted =
        some ("Error fetching notes: " ++ msg, "", "") ∧
      msg.data <:+: ("Error fetching notes: " ++ msg).data ∧
      (update_ui fit ("Error fetching notes: " ++ msg) "" ""
          rst).state.rows.map Row.labelText =
        ["Error fetching notes: " ++ msg, "", ""] ∧
      (update_ui fit ("Error fetching notes: " ++ msg) "" ""
          rst).state.rows.length = 3 := by
  intro cfg s n msg fit rst hs hp hnotes
  refine ⟨?_, ⟨"Error fetching notes: ".data, [], by simp⟩, rfl, rfl⟩
  rw [update_info_genshinError cfg s n msg hs hp hnotes]

theorem C2_witness :
    (update_info cfgW (.genshinError "boom")).emitted =
      some ("Error fetching notes: boom", "", "") ∧
    (update_ui true "Error fetching notes: boom" "" "" rstW).state.rows.length
      = 3 :=
  ⟨(C2_api_error_render cfgW "123456" 123456 "boom" true rstW rfl rfl rfl).1,
   (C2_api_error_render cfgW "123456" 123456 "boom" true rstW rfl rfl rfl).2.2.2⟩

/-- Claim C9: a non-integer ltuid_v2 makes every refresh tick emit the
generic failure triple - first field the text Error fetching data followed
by the int() ValueError message, other two fields blank - regardless of the
show_notes flag, and the get-notes call is never made. -/
theorem C9_bad_uid :
    ∀ (cfg : Config) (fetch : FetchResult) (s : String),
      lookupKey cfg.auth "ltuid_v2" = some s →
      pyParseInt s = none →
      (update_info cfg fetch).emitted =
        some ("Error fetching data: " ++ invalidIntMsg s, "", "") ∧
      (update_info cfg fetch).calledGetNotes = false := by
  intro cfg fetch s hs hp
  rw [update_info_badUid cfg fetch s hs hp]
  exact ⟨rfl, rfl⟩

theorem C9_witness :
    (update_info cfgBadUid (.ok notesW)).emitted =
      some ("Error fetching data: " ++ invalidIntMsg "abc", "", "") ∧
    (update_info cfgBadUid (.ok notesW)).calledGetNotes = false :=
  C9_bad_uid cfgBadUid (.ok notesW) "abc" rfl rfl

/-- Claim C5 (amended): startup configures the recurring refresh timer with
a fixed 60000 ms period and schedules one eager startup invocation that
runs the same refresh routine; on every invocation the external get-notes
call is made if and only if the show_notes flag equals the token 1 (absent
key defaulting to 0, hence disabled) AND the ltuid_v2 credential is present
and parses as a decimal integer - the integer conversion precedes the flag
gate, so a bad credential suppresses the call even with the flag enabled,
which is what the counterexample exhibits against the original claim. -/
theorem C5_refresh_gate :
    (∀ cfg st, initUI cfg = .ok st → st.timerIntervalMs = 60000) ∧
    (∀ cfg fetch, add_info_labels cfg fetch = update_info cfg fetch) ∧
    (∀ cfg fetch, (update_info cfg fetch).calledGetNotes = true ↔
      ((lookupKey cfg.display "show_notes").getD "0" = "1" ∧
       ∃ s n, lookupKey cfg.auth "ltuid_v2" = some s ∧ pyParseInt s = some n)) := by
  refine ⟨initUI_timer, fun _ _ => rfl, ?_⟩
  intro cfg fetch
  cases hs : lookupKey cfg.auth "ltuid_v2" with
  | none => simp [update_info, hs]
  | some s =>
    cases hp : pyParseInt s with
    | none => simp [update_info, hs, hp]
    | some n =>
      by_cases hflag : (lookupKey cfg.display "show_notes").getD "0" = "1"
      · cases fetch <;> simp [update_info, hs, hp, hflag, bool_from_str]
      · simp [update_info, hs, hp, hflag, bool_from_str]

theorem C5_counterexample :
    (lookupKey cfgBadUid.display "show_notes").getD "0" = "1" ∧
    (update_info cfgBadUid (.ok notesW)).calledGetNotes = false :=
  ⟨rfl, rfl⟩

theorem C5_witness :
    stW.timerIntervalMs = 60000 ∧
    (update_info cfgW (.ok notesW)).calledGetNotes = true :=
  ⟨C5_refresh_gate.1 cfgW stW rfl,
   (C5_refresh_gate.2.2 cfgW (.ok notesW)).mpr ⟨rfl, "123456", 123456, rfl, rfl⟩⟩

/-- Claim C7: a drag tick moves the window by the cursor delta and writes
the new position into Window.last_x / last_y of the in-memory settings and
of the persisted file, and window close persists the current position the
same way, so re-reading the store yields the on-screen position. -/
theorem C7_position_persisted :
    ∀ (gp : Int × Int) (st : AppState),
      (mouseMoveEvent gp st).win.x = st.win.x + (gp.1 - st.win.oldPos.1) ∧
      (mouseMoveEvent gp st).win.y = st.win.y + (gp.2 - st.win.oldPos.2) ∧
      lookupKey (mouseMoveEvent gp st).file.window "last_x" =
        some (toString (mouseMoveEvent gp st).win.x) ∧
      lookupKey (mouseMoveEvent gp st).file.window "last_y" =
        some (toString (mouseMoveEvent gp st).win.y) ∧
      (mouseMoveEvent gp st).config = (mouseMoveEvent gp st).file ∧
      lookupKey (closeEvent st).file.window "last_x" =
        some (toString st.win.x) ∧
      lookupKey (closeEvent st).file.window "last_y" =
        some (toString st.win.y) ∧
      (closeEvent st).config = (closeEvent st).file := by
  intro gp st
  have hne : ("last_x" : String) ≠ "last_y" := by decide
  refine ⟨rfl, rfl, ?_, ?_, rfl, ?_, ?_, rfl⟩
  · show lookupKey (setKey (setKey st.config.window "last_x" _) "last_y" _)
      "last_x" = _
    rw [lookupKey_setKey_ne _ _ _ _ hne, lookupKey_setKey_self]
    rfl
  · exact lookupKey_setKey_self _ _ _
  · show lookupKey (setKey (setKey st.config.window "last_x" _) "last_y" _)
      "last_x" = _
    rw [lookupKey_setKey_ne _ _ _ _ hne, lookupKey_setKey_self]
  · exact lookupKey_setKey_self _ _ _

/-- Claim C10: persisting the position on a drag tick or on close rewrites
the file from the in-memory configuration and only the Window last_x and
last_y keys change - the Display and Auth sections and every other Window
key keep their previous values. -/
theorem C10_persist_frame :
    ∀ (gp : Int × Int) (st : AppState) (k : String),
      k ≠ "last_x" → k ≠ "last_y" →
      (mouseMoveEvent gp st).file.display = st.config.display ∧
      (mouseMoveEvent gp st).file.auth = st.config.auth ∧
      lookupKey (mouseMoveEvent gp st).file.window k =
        lookupKey st.config.window k ∧
      (closeEvent st).file.display = st.config.display ∧
      (closeEvent st).file.auth = st.config.auth ∧
      lookupKey (closeEvent st).file.window k = lookupKey st.config.window k := by
  intro gp st k hkx hky
  refine ⟨rfl, rfl, ?_, rfl, rfl, ?_⟩
  · show lookupKey (setKey (setKey st.config.window "last_x" _) "last_y" _) k = _
    rw [lookupKey_setKey_ne _ _ _ _ hky, lookupKey_setKey_ne _ _ _ _ hkx]
  · show lookupKey (setKey (setKey st.config.window "last_x" _) "last_y" _) k = _
    rw [lookupKey_setKey_ne _ _ _ _ hky, lookupKey_setKey_ne _ _ _ _ hkx]

theorem C10_witness :
    (mouseMoveEvent (17, 23) appW).file.display = cfgW.display ∧
    lookupKey (mouseMoveEvent (17, 23) appW).file.window "margins" =
      lookupKey cfgW.window "margins" ∧
    lookupKey (closeEvent appW).file.window "margins" =
      lookupKey cfgW.window "margins" :=
  ⟨(C10_persist_frame (17, 23) appW "margins" (by decide) (by decide)).1,
   (C10_persist_frame (17, 23) appW "margins" (by decide) (by decide)).2.2.1,
   (C10_persist_frame (17, 23) appW "margins" (by decide) (by decide)).2.2.2.2.2⟩

/-- Claim C8: every UI update removes all prior rows from the content
layout (scheduling their widgets for deletion) and builds three fresh rows
sharing no widget with any prior row, so the layout holds exactly three
rows after every update; the window is resized to fit exactly when
fit_window_to_text is enabled. -/
theorem C8_rebuild :
    ∀ (fit : Bool) (a b c : String) (rst : RenderState),
      (∀ r ∈ rst.rows, r.iconId < rst.counter ∧ r.labelId < rst.counter) →
      (update_ui fit a b c rst).deleted = rst.rows ∧
      (update_ui fit a b c rst).state.rows.length = 3 ∧
      (∀ r ∈ (update_ui fit a b c rst).state.rows, ∀ r2 ∈ rst.rows,
        r.iconId ≠ r2.iconId ∧ r.labelId ≠ r2.labelId ∧
        r.iconId ≠ r2.labelId ∧ r.labelId ≠ r2.iconId) ∧
      (update_ui fit a b c rst).adjusted = fit := by
  intro fit a b c rst h
  refine ⟨rfl, rfl, ?_, rfl⟩
  intro r hr r2 hr2
  obtain ⟨h1, h2⟩ := h r2 hr2
  simp only [update_ui, List.mem_cons, List.not_mem_nil, or_false] at hr
  rcases hr with rfl | rfl | rfl <;>
    exact ⟨by simp; omega, by simp; omega, by simp; omega, by simp; omega⟩

theorem C8_witness :
    (update_ui true "A" "B" "C" rstW).deleted = rstW.rows ∧
    (update_ui true "A" "B" "C" rstW).state.rows.length = 3 ∧
    (update_ui true "A" "B" "C" rstW).adjusted = true :=
  ⟨(C8_rebuild true "A" "B" "C" rstW (by decide)).1,
   (C8_rebuild true "A" "B" "C" rstW (by decide)).2.1,
   (C8_rebuild true "A" "B" "C" rstW (by decide)).2.2.2⟩

end GenshinWidget
